import Mathlib

/-!
Shallow embedding of the mailer-sdk request/response contract layer.

The definitions below are translated from the TypeScript sources:
* `Client` (constructor, `fetchRequest`, method wrappers) —
  src/src/batch/types/transactional-batch.interface.ts
* `normalizeError` / `isRavenErrorResponse` —
  src/src/common/utils (normalizeError.ts, guards.ts)
* `RAVEN_ERROR_CODES` — src/src/common/types/error.types.ts
* `ApiKeys` (create/get/list) and its zod validators —
  src/src/api-keys/api-keys.ts, src/src/api-keys/validators.ts
* `Emails.sendQueued` — src/src/emails/emails.ts
* `Broadcasts.get` — src/src/raven.ts (Broadcasts service)

Runtime JavaScript values are modelled by the `Json` type (with `undef` for
JavaScript's `undefined`, since property access on a missing key yields
`undefined`, which `|| null` then collapses to `null`).  TypeScript types are
erased at runtime, so envelope fields are modelled as raw `Json` values: the
transport casts parsed JSON without any shape check.
-/

namespace MailerSdk

/-- Runtime JavaScript/JSON values.  Numbers are restricted to integers,
which covers every numeric value appearing in the embedded code paths
(ids, limits, offsets, timeouts). -/
inductive Json where
  | undef : Json
  | null : Json
  | bool : Bool → Json
  | num : Int → Json
  | str : String → Json
  | arr : List Json → Json
  | obj : List (String × Json) → Json

namespace Json

mutual

/-- Decidable equality on `Json` (the nested inductive prevents deriving). -/
def decEq : (a b : Json) → Decidable (a = b)
  | .undef, .undef => isTrue rfl
  | .null, .null => isTrue rfl
  | .bool a, .bool b =>
    if h : a = b then isTrue (by rw [h]) else isFalse (fun he => h (Json.bool.inj he))
  | .num a, .num b =>
    if h : a = b then isTrue (by rw [h]) else isFalse (fun he => h (Json.num.inj he))
  | .str a, .str b =>
    if h : a = b then isTrue (by rw [h]) else isFalse (fun he => h (Json.str.inj he))
  | .arr xs, .arr ys =>
    match decEqList xs ys with
    | isTrue h => isTrue (by rw [h])
    | isFalse h => isFalse (fun he => h (Json.arr.inj he))
  | .obj xs, .obj ys =>
    match decEqFields xs ys with
    | isTrue h => isTrue (by rw [h])
    | isFalse h => isFalse (fun he => h (Json.obj.inj he))
  | .undef, .null => isFalse (fun h => Json.noConfusion h)
  | .undef, .bool _ => isFalse (fun h => Json.noConfusion h)
  | .undef, .num _ => isFalse (fun h => Json.noConfusion h)
  | .undef, .str _ => isFalse (fun h => Json.noConfusion h)
  | .undef, .arr _ => isFalse (fun h => Json.noConfusion h)
  | .undef, .obj _ => isFalse (fun h => Json.noConfusion h)
  | .null, .undef => isFalse (fun h => Json.noConfusion h)
  | .null, .bool _ => isFalse (fun h => Json.noConfusion h)
  | .null, .num _ => isFalse (fun h => Json.noConfusion h)
  | .null, .str _ => isFalse (fun h => Json.noConfusion h)
  | .null, .arr _ => isFalse (fun h => Json.noConfusion h)
  | .null, .obj _ => isFalse (fun h => Json.noConfusion h)
  | .bool _, .undef => isFalse (fun h => Json.noConfusion h)
  | .bool _, .null => isFalse (fun h => Json.noConfusion h)
  | .bool _, .num _ => isFalse (fun h => Json.noConfusion h)
  | .bool _, .str _ => isFalse (fun h => Json.noConfusion h)
  | .bool _, .arr _ => isFalse (fun h => Json.noConfusion h)
  | .bool _, .obj _ => isFalse (fun h => Json.noConfusion h)
  | .num _, .undef => isFalse (fun h => Json.noConfusion h)
  | .num _, .null => isFalse (fun h => Json.noConfusion h)
  | .num _, .bool _ => isFalse (fun h => Json.noConfusion h)
  | .num _, .str _ => isFalse (fun h => Json.noConfusion h)
  | .num _, .arr _ => isFalse (fun h => Json.noConfusion h)
  | .num _, .obj _ => isFalse (fun h => Json.noConfusion h)
  | .str _, .undef => isFalse (fun h => Json.noConfusion h)
  | .str _, .null => isFalse (fun h => Json.noConfusion h)
  | .str _, .bool _ => isFalse (fun h => Json.noConfusion h)
  | .str _, .num _ => isFalse (fun h => Json.noConfusion h)
  | .str _, .arr _ => isFalse (fun h => Json.noConfusion h)
  | .str _, .obj _ => isFalse (fun h => Json.noConfusion h)
  | .arr _, .undef => isFalse (fun h => Json.noConfusion h)
  | .arr _, .null => isFalse (fun h => Json.noConfusion h)
  | .arr _, .bool _ => isFalse (fun h => Json.noConfusion h)
  | .arr _, .num _ => isFalse (fun h => Json.noConfusion h)
  | .arr _, .str _ => isFalse (fun h => Json.noConfusion h)
  | .arr _, .obj _ => isFalse (fun h => Json.noConfusion h)
  | .obj _, .undef => isFalse (fun h => Json.noConfusion h)
  | .obj _, .null => isFalse (fun h => Json.noConfusion h)
  | .obj _, .bool _ => isFalse (fun h => Json.noConfusion h)
  | .obj _, .num _ => isFalse (fun h => Json.noConfusion h)
  | .obj _, .str _ => isFalse (fun h => Json.noConfusion h)
  | .obj _, .arr _ => isFalse (fun h => Json.noConfusion h)

def decEqList : (xs ys : List Json) → Decidable (xs = ys)
  | [], [] => isTrue rfl
  | [], _ :: _ => isFalse (fun h => List.noConfusion h)
  | _ :: _, [] => isFalse (fun h => List.noConfusion h)
  | x :: xs, y :: ys =>
    match decEq x y, decEqList xs ys with
    | isTrue h1, isTrue h2 => isTrue (by rw [h1, h2])
    | isFalse h1, _ => isFalse (fun h => h1 (List.cons.inj h).1)
    | isTrue _, isFalse h2 => isFalse (fun h => h2 (List.cons.inj h).2)

def decEqFields : (xs ys : List (String × Json)) → Decidable (xs = ys)
  | [], [] => isTrue rfl
  | [], _ :: _ => isFalse (fun h => List.noConfusion h)
  | _ :: _, [] => isFalse (fun h => List.noConfusion h)
  | (k, v) :: xs, (l, w) :: ys =>
    match String.decEq k l, decEq v w, decEqFields xs ys with
    | isTrue h0, isTrue h1, isTrue h2 => isTrue (by rw [h0, h1, h2])
    | isFalse h0, _, _ =>
      isFalse (fun h => h0 (congrArg Prod.fst (List.cons.inj h).1))
    | isTrue _, isFalse h1, _ =>
      isFalse (fun h => h1 (congrArg Prod.snd (List.cons.inj h).1))
    | isTrue _, isTrue _, isFalse h2 => isFalse (fun h => h2 (List.cons.inj h).2)

end

instance : DecidableEq Json := decEq

/-- JavaScript truthiness of a value. -/
def truthy : Json → Bool
  | undef => false
  | null => false
  | bool b => b
  | num n => n ≠ 0
  | str s => s ≠ ""
  | arr _ => true
  | obj _ => true

/-- Property access `v.k` (first matching key wins, as in a JS object
whose literal has no duplicate keys); missing keys give `undefined`,
and access on a non-object is only ever performed behind `?.` in the
embedded code, which yields `undefined` for `null`/`undefined`. -/
def getField : Json → String → Json
  | obj fs, k =>
    match fs.find? (fun p => p.fst = k) with
    | some p => p.snd
    | none => undef
  | _, _ => undef

/-- `a || null` as used in `response.data?.apiKey || null`. -/
def orNull (v : Json) : Json := if v.truthy then v else null

/-- `typeof v === "string"`. -/
def isString : Json → Bool
  | str _ => true
  | _ => false

end Json

/-- The `{ data, error }` result envelope, with both fields as raw runtime
values (`Json.null` standing for the literal `null`). -/
structure Envelope where
  data : Json
  error : Json
  deriving DecidableEq

/-- Construct the literal error object `{ name: ..., message: ... }`. -/
def errJson (name message : String) : Json :=
  .obj [("name", .str name), ("message", .str message)]

/-- Keys of `RAVEN_ERROR_CODES` (src/src/common/types/error.types.ts):
the closed enumeration of error codes. -/
def ravenErrorCodes : List String :=
  ["missing_required_field", "invalid_access", "invalid_parameter",
   "invalid_region", "rate_limit_exceeded", "missing_api_key",
   "invalid_api_key", "invalid_from_address", "validation_error",
   "not_found", "method_not_allowed", "request_timeout",
   "application_error", "internal_server_error"]

/-! ## Transport (`Client.fetchRequest`) -/

/-- Result of `JSON.parse` on a raw body: either a parsed value or a parse
failure (carrying the `SyntaxError` message used when the failure escapes
to the outer catch on the success path). -/
inductive HttpBody where
  | valid : Json → HttpBody
  | invalid : String → HttpBody
  deriving DecidableEq

/-- Outcome of the `fetch` exchange as observed by `fetchRequest`:
the timeout abort, some other thrown value (an `Error` with a message, or a
non-`Error` value), or an HTTP response with `ok` status flag and a body. -/
inductive FetchOutcome where
  | abortTimeout : FetchOutcome
  | thrown : (isError : Bool) → (msg : String) → FetchOutcome
  | response : (ok : Bool) → HttpBody → FetchOutcome
  deriving DecidableEq

/-- `Client.fetchRequest` (src/src/batch/types/transactional-batch.interface.ts):
classify the exchange outcome into the uniform envelope.
* non-ok response: `JSON.parse` the raw text; on success the parsed value is
  returned as the error with no shape check; on parse failure the fixed
  `internal_server_error` envelope is returned.
* ok response: `response.json()` is the data; a JSON parse failure there
  throws and is caught by the outer catch (a `SyntaxError` is an `Error`,
  not an `AbortError`), producing `internal_server_error` with its message.
* `AbortError` from the timeout controller: `request_timeout` with the
  configured timeout interpolated.
* any other thrown value: `internal_server_error` with the error's message,
  or `"Unknown error"` for non-`Error` values. -/
def fetchRequest (timeout : Nat) : FetchOutcome → Envelope
  | .abortTimeout =>
    ⟨.null, errJson "request_timeout" ("Request timed out after " ++ toString timeout ++ "ms")⟩
  | .thrown isError msg =>
    ⟨.null, errJson "internal_server_error" (if isError then msg else "Unknown error")⟩
  | .response ok body =>
    if ok then
      match body with
      | .valid j => ⟨j, .null⟩
      | .invalid parseMsg => ⟨.null, errJson "internal_server_error" parseMsg⟩
    else
      match body with
      | .valid j => ⟨.null, j⟩
      | .invalid _ => ⟨.null, errJson "internal_server_error" "An unexpected error occurred"⟩

/-! ## Header construction (`Client` constructor and `fetchRequest`) -/

/-- The fixed base headers written first in the `Headers` literal of the
`Client` constructor.  `version` is the value imported from package.json. -/
def fixedHeaders (key version : String) : List (String × String) :=
  [("Authorization", "Bearer " ++ key),
   ("Content-Type", "application/json"),
   ("X-SDK-Version", "raven-sdk:" ++ version)]

/-- JavaScript object-literal spread `{...base, ...upd}`: keys of `base`
keep their position but take the value from `upd` when present; keys only
in `upd` are appended.  Both inputs have pairwise-distinct keys (a `Record`
and a fixed literal). -/
def objSpread (base upd : List (String × String)) : List (String × String) :=
  base.map (fun p => (p.fst, ((upd.find? (fun q => q.fst = p.fst)).map Prod.snd).getD p.snd))
    ++ upd.filter (fun q => (base.find? (fun p => p.fst = q.fst)).isNone)

/-- `this.headers` as initialised in the `Client` constructor:
`new Headers({ Authorization: ..., "Content-Type": ..., "X-SDK-Version": ...,
...options.defaultHeaders })` — later literal keys override earlier ones. -/
def clientHeaders (key version : String) (defaultHeaders : List (String × String)) :
    List (String × String) :=
  objSpread (fixedHeaders key version) defaultHeaders

/-- The headers actually placed on the outgoing `fetch` call.
`fetchRequest` builds the fetch options as
`{ ...options, headers: this.headers, signal: ... }`: because
`headers: this.headers` appears after the spread of the per-call options,
any per-call `headers` entry is overwritten by the construction-time
header object, so the outgoing headers never depend on `perCallHeaders`. -/
def outgoingHeaders (key version : String)
    (defaultHeaders perCallHeaders : List (String × String)) :
    List (String × String) :=
  let _ := perCallHeaders
  clientHeaders key version defaultHeaders

/-- Header lookup by (exact-case) name. -/
def lookupHeader (hs : List (String × String)) (k : String) : Option String :=
  (hs.find? (fun p => p.fst = k)).map Prod.snd

/-! ## `normalizeError` (src/src/common/utils/normalizeError.ts) -/

/-- A thrown JavaScript value as classified by `normalizeError`:
a `ZodError` (carrying its issue messages in zod's reporting order),
some other object (with a flag recording whether it is an `instanceof
Error`), or a non-object (null, a primitive, ...). -/
inductive Thrown where
  | zod : List String → Thrown
  | errObj : (isError : Bool) → List (String × Json) → Thrown
  | nonObj : Json → Thrown
  deriving DecidableEq

/-- `isRavenErrorResponse` (src/src/common/utils/guards.ts): the value is a
non-null object whose `message` and `name` properties are both strings.
(A `ZodError` is itself an `Error` object with string `name`/`message`.) -/
def isRavenErrorResponse : Thrown → Bool
  | .zod _ => true
  | .errObj _ fields =>
    ((Json.obj fields).getField "message").isString
      && ((Json.obj fields).getField "name").isString
  | .nonObj _ => false

/-- `normalizeError` with the default fallback code `"application_error"`:
`ZodError` → `validation_error` with the issue messages joined by `", "`;
otherwise a value passing `isRavenErrorResponse` is returned unchanged;
otherwise an `instanceof Error` value maps to the fallback code with the
value's `message` property; anything else maps to the fallback code with
`"Unknown error"`. -/
def normalizeError (error : Thrown) : Json :=
  match error with
  | .zod issues => errJson "validation_error" (String.intercalate ", " issues)
  | .errObj isError fields =>
    if isRavenErrorResponse (.errObj isError fields) then Json.obj fields
    else if isError then
      Json.obj [("name", .str "application_error"),
                ("message", (Json.obj fields).getField "message")]
    else errJson "application_error" "Unknown error"
  | .nonObj _ => errJson "application_error" "Unknown error"

/-! ## Requests and resource operations -/

/-- A request as handed to `fetchRequest` by the method wrappers:
`body` is the entity passed to `JSON.stringify` (absent for GET, and for
POST calls made without an entity, where `JSON.stringify(undefined)`
is `undefined`). -/
structure RequestSpec where
  method : String
  path : String
  body : Option Json
  deriving DecidableEq

/-- Result of one resource-operation invocation: the returned envelope
together with the list of requests handed to the transport (used to state
the no-network-on-invalid-input property). -/
structure OpResult where
  envelope : Envelope
  requests : List RequestSpec
  deriving DecidableEq

/-- `params.toString()` on the assembled `URLSearchParams`.
`URLSearchParams` percent-encodes keys and values; every key and value
produced by the embedded list operations consists of unreserved characters
(letters, digits, `-`), on which the encoding is the identity. -/
def queryToString (ps : List (String × String)) : String :=
  String.intercalate "&" (ps.map (fun p => p.fst ++ "=" ++ p.snd))

/-! ## ApiKeys validators (src/src/api-keys/validators.ts)

The zod schemas are embedded as issue-message computations: `schema.parse`
throws a `ZodError` carrying exactly these messages, in the shape's key
declaration order, iff the computed list is non-empty.  The atomic string
format checks `z.string().uuid()` / `z.string().datetime()` live in the
external zod library, so they are taken as parameters. -/

/-- `CreateApiKeyOptions` (src/src/api-keys/types). -/
structure CreateApiKeyOptions where
  name : String
  company_id : Int
  created_by : String
  expires_at : Option String
  permissions : Option (List String)
  domain_ids : Option (List Int)
  deriving DecidableEq

/-- Issue messages produced by `createApiKeySchema.parse`. -/
def createApiKeyIssues (isUuid isDatetime : String → Bool)
    (o : CreateApiKeyOptions) : List String :=
  (if o.name.length < 1 then ["API key name is required"] else [])
    ++ (if o.name.length > 100 then ["Name too long"] else [])
    ++ (if o.company_id ≤ 0 then ["Company ID must be positive"] else [])
    ++ (if isUuid o.created_by then [] else ["Created by must be a valid UUID"])
    ++ (match o.expires_at with
        | some s => if isDatetime s then [] else ["Invalid datetime"]
        | none => [])
    ++ (match o.domain_ids with
        | some l => (l.filter (fun n => n ≤ 0)).map (fun _ => "Number must be greater than 0")
        | none => [])

/-- Issue messages produced by `getApiKeyByIdSchema.parse` (also the shape
of `removeApiKeySchema`). -/
def getApiKeyByIdIssues (id company_id : Int) : List String :=
  (if id ≤ 0 then ["API key ID must be positive"] else [])
    ++ (if company_id ≤ 0 then ["Company ID must be positive"] else [])

/-- API key status enumeration (typed as a closed union in TS). -/
inductive ApiKeyStatus where
  | ACTIVE | INACTIVE | EXPIRED
  deriving DecidableEq

def ApiKeyStatus.toStr : ApiKeyStatus → String
  | .ACTIVE => "ACTIVE"
  | .INACTIVE => "INACTIVE"
  | .EXPIRED => "EXPIRED"

/-- `ListApiKeysOptions` (src/src/api-keys/types). -/
structure ListApiKeysOptions where
  company_id : Int
  limit : Option Int
  offset : Option Int
  status : Option ApiKeyStatus
  deriving DecidableEq

/-- Issue messages produced by `listApiKeysSchema.parse` (the `.default`
values affect only the parse output, which the code discards). -/
def listApiKeysIssues (o : ListApiKeysOptions) : List String :=
  (if o.company_id ≤ 0 then ["Company ID must be positive"] else [])
    ++ (match o.limit with
        | some l =>
          (if l < 1 then ["Number must be greater than or equal to 1"] else [])
            ++ (if l > 100 then ["Number must be less than or equal to 100"] else [])
        | none => [])
    ++ (match o.offset with
        | some v => if v < 0 then ["Number must be greater than or equal to 0"] else []
        | none => [])

/-! ## ApiKeys operations (src/src/api-keys/api-keys.ts) -/

/-- JSON.stringify view of `CreateApiKeyOptions` (undefined optional
fields are omitted). -/
def encodeCreateApiKeyOptions (o : CreateApiKeyOptions) : Json :=
  .obj ([("name", .str o.name), ("company_id", .num o.company_id),
         ("created_by", .str o.created_by)]
    ++ (match o.expires_at with | some s => [("expires_at", Json.str s)] | none => [])
    ++ (match o.permissions with
        | some l => [("permissions", Json.arr (l.map Json.str))] | none => [])
    ++ (match o.domain_ids with
        | some l => [("domain_ids", Json.arr (l.map Json.num))] | none => []))

/-- The error-check-and-unwrap tail shared by `ApiKeys.create/get/update`
and `Broadcasts.get`:
`if (response.error) return { data: null, error: response.error };
 return { data: response.data?.<key> || null, error: null };` -/
def unwrapResponse (key : String) (response : Envelope) : Envelope :=
  if response.error.truthy then ⟨.null, response.error⟩
  else ⟨(response.data.getField key).orNull, .null⟩

namespace ApiKeys

/-- `ApiKeys.create`: validate with `createApiKeySchema`, POST to
`/api-keys`, propagate a transport error, otherwise unwrap `apiKey`.
A `ZodError` from `parse` is caught and normalised, and no request is
made.  `net` abstracts `this.client.post`. -/
def create (isUuid isDatetime : String → Bool) (options : CreateApiKeyOptions)
    (net : RequestSpec → Envelope) : OpResult :=
  let issues := createApiKeyIssues isUuid isDatetime options
  if issues.isEmpty then
    let req : RequestSpec := ⟨"POST", "/api-keys", some (encodeCreateApiKeyOptions options)⟩
    ⟨unwrapResponse "apiKey" (net req), [req]⟩
  else
    ⟨⟨.null, normalizeError (.zod issues)⟩, []⟩

/-- `ApiKeys.get`: validate `{id, company_id}` with `getApiKeyByIdSchema`,
GET `/api-keys/${id}`, propagate a transport error, otherwise unwrap
`apiKey`. -/
def get (id companyId : Int) (net : RequestSpec → Envelope) : OpResult :=
  let issues := getApiKeyByIdIssues id companyId
  if issues.isEmpty then
    let req : RequestSpec := ⟨"GET", "/api-keys/" ++ toString id, none⟩
    ⟨unwrapResponse "apiKey" (net req), [req]⟩
  else
    ⟨⟨.null, normalizeError (.zod issues)⟩, []⟩

/-- The `URLSearchParams` assembled by `ApiKeys.list`: `companyId` is
always appended; `limit`, `offset`, `status` are appended under a JS
truthiness check (`if (options.limit)` etc.), so a defined `0` is
dropped. -/
def listParams (o : ListApiKeysOptions) : List (String × String) :=
  [("companyId", toString o.company_id)]
    ++ (match o.limit with
        | some l => if l ≠ 0 then [("limit", toString l)] else []
        | none => [])
    ++ (match o.offset with
        | some v => if v ≠ 0 then [("offset", toString v)] else []
        | none => [])
    ++ (match o.status with
        | some s => if s.toStr ≠ "" then [("status", s.toStr)] else []
        | none => [])

/-- `ApiKeys.list`: validate with `listApiKeysSchema`, GET
`/api-keys?<query>`, propagate a transport error, otherwise return
`response.data || null` (no wrapper unwrapping on list). -/
def list (o : ListApiKeysOptions) (net : RequestSpec → Envelope) : OpResult :=
  let issues := listApiKeysIssues o
  if issues.isEmpty then
    let req : RequestSpec := ⟨"GET", "/api-keys?" ++ queryToString (listParams o), none⟩
    let response := net req
    if response.error.truthy then ⟨⟨.null, response.error⟩, [req]⟩
    else ⟨⟨response.data.orNull, .null⟩, [req]⟩
  else
    ⟨⟨.null, normalizeError (.zod issues)⟩, []⟩

end ApiKeys

/-- `Broadcasts.get` (src/src/raven.ts): no schema validation; GET
`/broadcasts/${id}?companyId=${companyId}`, propagate a transport error,
otherwise unwrap `broadcast`. -/
def Broadcasts.get (id companyId : Int) (net : RequestSpec → Envelope) : OpResult :=
  let req : RequestSpec :=
    ⟨"GET", "/broadcasts/" ++ toString id ++ "?companyId=" ++ toString companyId, none⟩
  ⟨unwrapResponse "broadcast" (net req), [req]⟩

/-! ## `Emails.sendQueued` (src/src/emails/emails.ts) -/

/-- An attachment as accepted by `sendQueued`. -/
structure Attachment where
  filename : String
  content : String
  contentType : String
  deriving DecidableEq

def Attachment.toJson (a : Attachment) : Json :=
  .obj [("filename", .str a.filename), ("content", .str a.content),
        ("contentType", .str a.contentType)]

/-- The `payload` part of the `sendQueued` input; `hasReact` records
whether the optional `react` element is present (the element itself lives
in the external React library). -/
structure QueuedEmailPayload where
  to' : List String
  cc : Option (List String)
  bcc : Option (List String)
  subject : String
  body : Option String
  hasReact : Bool
  from' : Option String
  replyTo : Option String
  attachments : Option (List Attachment)
  deriving DecidableEq

/-- The `metadata` part of the `sendQueued` input. -/
structure QueuedEmailMetadata where
  tenantId : Int
  domainId : Int
  senderId : String
  apiKeyId : Int
  templateId : Int
  trackingEnabled : Bool
  deriving DecidableEq

def QueuedEmailMetadata.toJson (m : QueuedEmailMetadata) : Json :=
  .obj [("tenantId", .num m.tenantId), ("domainId", .num m.domainId),
        ("senderId", .str m.senderId), ("apiKeyId", .num m.apiKeyId),
        ("templateId", .num m.templateId), ("trackingEnabled", .bool m.trackingEnabled)]

/-- Outcome of the external React render step when `payload.react` is
present: `React.isValidElement` fails, `renderAsync` rejects (with a
message when the rejection is an `Error`), or rendering succeeds. -/
inductive RenderOutcome where
  | invalidElement : RenderOutcome
  | failed : Option String → RenderOutcome
  | rendered : String → RenderOutcome
  deriving DecidableEq

/-- Helper for JSON.stringify's omission of `undefined` object values. -/
def optField (k : String) : Option Json → List (String × Json)
  | some j => [(k, j)]
  | none => []

/-- The entity posted to `/emails/queue` by `sendQueued`. -/
def queuedEmailBody (p : QueuedEmailPayload) (m : QueuedEmailMetadata)
    (htmlBody : String) : Json :=
  .obj [("payload", .obj
          ([("type", Json.str "EMAIL"), ("to", Json.arr (p.to'.map Json.str))]
            ++ optField "cc" (p.cc.map (fun l => Json.arr (l.map Json.str)))
            ++ optField "bcc" (p.bcc.map (fun l => Json.arr (l.map Json.str)))
            ++ [("subject", Json.str p.subject), ("htmlBody", Json.str htmlBody)]
            ++ optField "from" (p.from'.map Json.str)
            ++ optField "replyTo" (p.replyTo.map Json.str)
            ++ optField "attachments"
                (p.attachments.map (fun l => Json.arr (l.map Attachment.toJson))))),
        ("metadata", m.toJson)]

/-- `Emails.sendQueued`: start from `payload.body ?? ""`; when a react
element is present, validate and render it (failures short-circuit with an
`application_error` and no request, and a rendered body over 100000
characters throws `"Rendered HTML body too large"` into the same inner
catch); POST to `/emails/queue`; when the response carries no truthy
`idempotencyKey` (in particular whenever the transport reported an error,
since `data` is then `null`), replace the outcome with
`application_error` / `"No idempotency key returned from queue endpoint"`;
otherwise return `{ data: response.data, error: response.error }`. -/
def Emails.sendQueued (p : QueuedEmailPayload) (m : QueuedEmailMetadata)
    (render : RenderOutcome) (net : RequestSpec → Envelope) : OpResult :=
  let htmlBody? : Except (Option String) String :=
    if p.hasReact then
      match render with
      | .invalidElement => .error (some "Invalid React element provided to renderAsync")
      | .failed msg => .error msg
      | .rendered html =>
        if html.length > 100000 then .error (some "Rendered HTML body too large")
        else .ok html
    else .ok (p.body.getD "")
  match htmlBody? with
  | .error msg =>
    ⟨⟨.null, errJson "application_error" (msg.getD "Template render failed")⟩, []⟩
  | .ok htmlBody =>
    let req : RequestSpec := ⟨"POST", "/emails/queue", some (queuedEmailBody p m htmlBody)⟩
    let response := net req
    if !(response.data.getField "idempotencyKey").truthy then
      ⟨⟨.null, errJson "application_error" "No idempotency key returned from queue endpoint"⟩,
        [req]⟩
    else
      ⟨⟨response.data, response.error⟩, [req]⟩

/-! ## Classification of `normalizeError` restated from the specified
precedence, for comparison with the implementation -/

/-- The error classifier as the spec words it: a schema-validation
exception first (ValidationError with the joined issue messages), then a
value already in ErrorInfo shape (string `name` and string `message`)
passed through unchanged, then a generic exception (ApplicationError with
the exception's message), then anything else (ApplicationError with
`"Unknown error"`). -/
def claimHasErrorInfoShape : Thrown → Bool
  | .zod _ => true
  | .errObj _ fields =>
    ((Json.obj fields).getField "name").isString
      && ((Json.obj fields).getField "message").isString
  | .nonObj _ => false

/-- The spec-side classifier (see `claimHasErrorInfoShape`). -/
def claimClassify : Thrown → Json
  | .zod issues => errJson "validation_error" (String.intercalate ", " issues)
  | .errObj isError fields =>
    if claimHasErrorInfoShape (.errObj isError fields) then Json.obj fields
    else if isError then
      Json.obj [("name", .str "application_error"),
                ("message", (Json.obj fields).getField "message")]
    else errJson "application_error" "Unknown error"
  | .nonObj j =>
    if claimHasErrorInfoShape (.nonObj j) then j
    else errJson "application_error" "Unknown error"

/-! ## Helper lemmas -/

/-- "Both envelope fields non-null" — the shape the exclusivity invariant
forbids. -/
def bothNonNull (e : Envelope) : Prop :=
  e.data ≠ Json.null ∧ e.error ≠ Json.null

theorem fetchRequest_data_or_error_null (t : Nat) (oc : FetchOutcome) :
    (fetchRequest t oc).data = Json.null ∨ (fetchRequest t oc).error = Json.null := by
  cases oc with
  | abortTimeout => exact Or.inl rfl
  | thrown isError msg => exact Or.inl rfl
  | response ok body =>
    cases ok with
    | false =>
      cases body with
      | valid j => exact Or.inl rfl
      | invalid pm => exact Or.inl rfl
    | true =>
      cases body with
      | valid j => exact Or.inr rfl
      | invalid pm => exact Or.inl rfl

theorem unwrapResponse_data_or_error_null (key : String) (r : Envelope) :
    (unwrapResponse key r).data = Json.null ∨ (unwrapResponse key r).error = Json.null := by
  unfold unwrapResponse
  split
  · exact Or.inl rfl
  · exact Or.inr rfl

theorem not_bothNonNull_of_or {e : Envelope}
    (h : e.data = Json.null ∨ e.error = Json.null) : ¬ bothNonNull e :=
  fun hb => h.elim (fun h1 => hb.1 h1) (fun h2 => hb.2 h2)

theorem apiKeysCreate_data_or_error_null (isUuid isDatetime : String → Bool)
    (o : CreateApiKeyOptions) (net : RequestSpec → Envelope) :
    (ApiKeys.create isUuid isDatetime o net).envelope.data = Json.null ∨
      (ApiKeys.create isUuid isDatetime o net).envelope.error = Json.null := by
  unfold ApiKeys.create
  dsimp only
  split
  · exact unwrapResponse_data_or_error_null _ _
  · exact Or.inl rfl

theorem apiKeysGet_data_or_error_null (id cid : Int) (net : RequestSpec → Envelope) :
    (ApiKeys.get id cid net).envelope.data = Json.null ∨
      (ApiKeys.get id cid net).envelope.error = Json.null := by
  unfold ApiKeys.get
  dsimp only
  split
  · exact unwrapResponse_data_or_error_null _ _
  · exact Or.inl rfl

theorem apiKeysList_data_or_error_null (o : ListApiKeysOptions) (net : RequestSpec → Envelope) :
    (ApiKeys.list o net).envelope.data = Json.null ∨
      (ApiKeys.list o net).envelope.error = Json.null := by
  unfold ApiKeys.list
  dsimp only
  split
  · split
    · exact Or.inl rfl
    · exact Or.inr rfl
  · exact Or.inl rfl

theorem broadcastsGet_data_or_error_null (id cid : Int) (net : RequestSpec → Envelope) :
    (Broadcasts.get id cid net).envelope.data = Json.null ∨
      (Broadcasts.get id cid net).envelope.error = Json.null :=
  unwrapResponse_data_or_error_null _ _

theorem sendQueued_data_or_error_null (p : QueuedEmailPayload) (m : QueuedEmailMetadata)
    (render : RenderOutcome) (net : RequestSpec → Envelope)
    (hnet : ∀ r, (net r).data = Json.null ∨ (net r).error = Json.null) :
    (Emails.sendQueued p m render net).envelope.data = Json.null ∨
      (Emails.sendQueued p m render net).envelope.error = Json.null := by
  unfold Emails.sendQueued
  dsimp only
  split
  · exact Or.inl rfl
  · rename_i htmlBody heq
    split
    · exact Or.inl rfl
    · rename_i htruthy
      rcases hnet ⟨"POST", "/emails/queue", some (queuedEmailBody p m htmlBody)⟩ with hd | he
      · rw [hd] at htruthy
        simp [Json.getField, Json.truthy] at htruthy
      · exact Or.inr he

/-! ## Claim theorems -/

/-- Claim C1 (counterexample): the envelope-exclusivity invariant fails as
stated.  With a successful transport response `{}` (no error, wrapper key
`apiKey` absent), `ApiKeys.get 1 1` returns `{data: null, error: null}`:
both fields are null, so it is not the case that exactly one of
`data`/`error` is non-null. -/
theorem envelope_exclusivity_counterexample :
    ¬ (((ApiKeys.get 1 1 (fun _ => ⟨Json.obj [], Json.null⟩)).envelope.data ≠ Json.null ∧
        (ApiKeys.get 1 1 (fun _ => ⟨Json.obj [], Json.null⟩)).envelope.error = Json.null) ∨
       ((ApiKeys.get 1 1 (fun _ => ⟨Json.obj [], Json.null⟩)).envelope.data = Json.null ∧
        (ApiKeys.get 1 1 (fun _ => ⟨Json.obj [], Json.null⟩)).envelope.error ≠ Json.null)) := by
  decide

/-- Claim C1 (amended): for every operation and every input, the returned
envelope never has both `data` and `error` non-null; at most one side is
populated (both may be null, see the counterexample).  Stated for the
transport itself and for every embedded resource operation, each driven by
an arbitrary network oracle composed with `fetchRequest`. -/
theorem envelope_never_both_nonnull (isUuid isDatetime : String → Bool)
    (o : CreateApiKeyOptions) (lo : ListApiKeysOptions) (id cid : Int)
    (p : QueuedEmailPayload) (m : QueuedEmailMetadata) (render : RenderOutcome)
    (t : Nat) (oracle : RequestSpec → FetchOutcome) (r : RequestSpec) :
    ¬ bothNonNull (fetchRequest t (oracle r)) ∧
    ¬ bothNonNull (ApiKeys.create isUuid isDatetime o
        (fun q => fetchRequest t (oracle q))).envelope ∧
    ¬ bothNonNull (ApiKeys.get id cid (fun q => fetchRequest t (oracle q))).envelope ∧
    ¬ bothNonNull (ApiKeys.list lo (fun q => fetchRequest t (oracle q))).envelope ∧
    ¬ bothNonNull (Broadcasts.get id cid (fun q => fetchRequest t (oracle q))).envelope ∧
    ¬ bothNonNull (Emails.sendQueued p m render
        (fun q => fetchRequest t (oracle q))).envelope :=
  ⟨not_bothNonNull_of_or (fetchRequest_data_or_error_null t (oracle r)),
   not_bothNonNull_of_or (apiKeysCreate_data_or_error_null isUuid isDatetime o _),
   not_bothNonNull_of_or (apiKeysGet_data_or_error_null id cid _),
   not_bothNonNull_of_or (apiKeysList_data_or_error_null lo _),
   not_bothNonNull_of_or (broadcastsGet_data_or_error_null id cid _),
   not_bothNonNull_of_or (sendQueued_data_or_error_null p m render _
     (fun q => fetchRequest_data_or_error_null t (oracle q)))⟩

/-- Claim C2: any input failing schema validation makes the operation
return `{data: null, error: {validation_error, <all issue messages joined
by ", " in the validator's reporting order>}}` and issue zero requests to
the transport.  Stated for `ApiKeys.create` (the cited operation) and
`ApiKeys.list`. -/
theorem validation_short_circuit (isUuid isDatetime : String → Bool)
    (o : CreateApiKeyOptions) (lo : ListApiKeysOptions)
    (net net2 : RequestSpec → Envelope)
    (h1 : createApiKeyIssues isUuid isDatetime o ≠ [])
    (h2 : listApiKeysIssues lo ≠ []) :
    ApiKeys.create isUuid isDatetime o net =
      ⟨⟨Json.null, errJson "validation_error"
          (String.intercalate ", " (createApiKeyIssues isUuid isDatetime o))⟩, []⟩ ∧
    ApiKeys.list lo net2 =
      ⟨⟨Json.null, errJson "validation_error"
          (String.intercalate ", " (listApiKeysIssues lo))⟩, []⟩ := by
  constructor
  · unfold ApiKeys.create
    dsimp only
    rw [if_neg (by simpa using h1)]
    rfl
  · unfold ApiKeys.list
    dsimp only
    rw [if_neg (by simpa using h2)]
    rfl

/-- Claim C2 (witness): an empty API-key name short-circuits `create`;
`list` with a non-positive company id and a zero limit reports both
messages joined by ", " in schema order; neither call reaches the
transport. -/
theorem validation_short_circuit_witness :
    (createApiKeyIssues (fun _ => true) (fun _ => true)
        ⟨"", 123, "u", none, none, none⟩ ≠ [] ∧
     listApiKeysIssues ⟨0, some 0, none, none⟩ ≠ []) ∧
    ApiKeys.create (fun _ => true) (fun _ => true) ⟨"", 123, "u", none, none, none⟩
        (fun _ => ⟨Json.null, Json.null⟩) =
      ⟨⟨Json.null, errJson "validation_error" "API key name is required"⟩, []⟩ ∧
    ApiKeys.list ⟨0, some 0, none, none⟩ (fun _ => ⟨Json.null, Json.null⟩) =
      ⟨⟨Json.null, errJson "validation_error"
          "Company ID must be positive, Number must be greater than or equal to 1"⟩, []⟩ := by
  have h := validation_short_circuit (fun _ => true) (fun _ => true)
    ⟨"", 123, "u", none, none, none⟩ ⟨0, some 0, none, none⟩
    (fun _ => ⟨Json.null, Json.null⟩) (fun _ => ⟨Json.null, Json.null⟩)
    (by decide) (by decide)
  exact ⟨⟨by decide, by decide⟩, h.1, h.2⟩

/-- Claim C3: when the timeout controller aborts the in-flight call (the
`AbortError` outcome), the transport returns exactly `{data: null, error:
{request_timeout, "Request timed out after <T>ms"}}` with the configured
timeout interpolated. -/
theorem timeout_envelope_exact (t : Nat) :
    fetchRequest t .abortTimeout =
      ⟨Json.null, errJson "request_timeout"
        ("Request timed out after " ++ toString t ++ "ms")⟩ := rfl

/-- Claim C4: on a non-2xx response the transport returns the parsed body
as the error whenever the body parses as JSON (in particular for any body
matching the ErrorInfo shape), and returns exactly
`{internal_server_error, "An unexpected error occurred"}` when parsing
fails; `fetchRequest` is a total function, so this path never raises. -/
theorem non2xx_error_classification (t : Nat) (j : Json) (pm : String) :
    fetchRequest t (.response false (.valid j)) = ⟨Json.null, j⟩ ∧
    fetchRequest t (.response false (.invalid pm)) =
      ⟨Json.null, errJson "internal_server_error" "An unexpected error occurred"⟩ :=
  ⟨rfl, rfl⟩

/-- Claim C5: on a successful transport response with the wrapper key
present (holding the nested payload object), the get-style operation
returns the unwrapped inner value with `error` null; with the wrapper key
absent it returns `{data: null, error: null}` without synthesizing an
error.  Stated for `ApiKeys.get` (wrapper `apiKey`) and `Broadcasts.get`
(wrapper `broadcast`). -/
theorem wrapper_unwrap (id cid : Int) (h1 : 0 < id) (h2 : 0 < cid)
    (v fs : List (String × Json))
    (hA : (Json.obj fs).getField "apiKey" = Json.undef)
    (hB : (Json.obj fs).getField "broadcast" = Json.undef) :
    (ApiKeys.get id cid
        (fun _ => ⟨Json.obj [("apiKey", Json.obj v)], Json.null⟩)).envelope
      = ⟨Json.obj v, Json.null⟩ ∧
    (ApiKeys.get id cid (fun _ => ⟨Json.obj fs, Json.null⟩)).envelope
      = ⟨Json.null, Json.null⟩ ∧
    (Broadcasts.get id cid
        (fun _ => ⟨Json.obj [("broadcast", Json.obj v)], Json.null⟩)).envelope
      = ⟨Json.obj v, Json.null⟩ ∧
    (Broadcasts.get id cid (fun _ => ⟨Json.obj fs, Json.null⟩)).envelope
      = ⟨Json.null, Json.null⟩ := by
  have hi1 : ¬ id ≤ 0 := not_le.mpr h1
  have hi2 : ¬ cid ≤ 0 := not_le.mpr h2
  have hiss : getApiKeyByIdIssues id cid = [] := by
    simp [getApiKeyByIdIssues, hi1, hi2]
  refine ⟨?_, ?_, ?_, ?_⟩
  · unfold ApiKeys.get
    dsimp only
    rw [hiss]
    rfl
  · unfold ApiKeys.get
    dsimp only
    rw [hiss]
    simp [unwrapResponse, Json.truthy, hA, Json.orNull]
  · rfl
  · simp [Broadcasts.get, unwrapResponse, Json.truthy, hB, Json.orNull]

/-- Claim C5 (witness): concrete unwrapping at `id = 1`, `companyId = 2`. -/
theorem wrapper_unwrap_witness :
    ((0:Int) < 1 ∧ (0:Int) < 2) ∧
    (ApiKeys.get 1 2
        (fun _ => ⟨Json.obj [("apiKey", Json.obj [("id", Json.num 7)])], Json.null⟩)).envelope
      = ⟨Json.obj [("id", Json.num 7)], Json.null⟩ ∧
    (ApiKeys.get 1 2 (fun _ => ⟨Json.obj [("other", Json.num 1)], Json.null⟩)).envelope
      = ⟨Json.null, Json.null⟩ ∧
    (Broadcasts.get 1 2
        (fun _ => ⟨Json.obj [("broadcast", Json.obj [("id", Json.num 7)])], Json.null⟩)).envelope
      = ⟨Json.obj [("id", Json.num 7)], Json.null⟩ ∧
    (Broadcasts.get 1 2 (fun _ => ⟨Json.obj [("other", Json.num 1)], Json.null⟩)).envelope
      = ⟨Json.null, Json.null⟩ := by
  have h := wrapper_unwrap 1 2 (by decide) (by decide)
    [("id", Json.num 7)] [("other", Json.num 1)] (by decide) (by decide)
  exact ⟨⟨by decide, by decide⟩, h.1, h.2.1, h.2.2.1, h.2.2.2⟩

/-- Claim C6 (counterexample): per-call header overrides do not take
effect.  With `defaultHeaders {"X-Custom": "v"}` at construction and a
per-call override `{"X-Custom": "w"}`, the outgoing request still carries
`X-Custom: v` — `fetchRequest` spreads the per-call options first and then
sets `headers: this.headers`, discarding per-call headers. -/
theorem header_percall_counterexample :
    lookupHeader (outgoingHeaders "rk_test_123456" "1.0.0"
        [("X-Custom", "v")] [("X-Custom", "w")]) "X-Custom" = some "v" ∧
    lookupHeader (outgoingHeaders "rk_test_123456" "1.0.0"
        [("X-Custom", "v")] [("X-Custom", "w")]) "X-Custom" ≠ some "w" := by
  decide

/-- Claim C6 (amended): construction-time `defaultHeaders` are merged over
the fixed base headers (defaults win, as the `Authorization` conjunct
shows) and every outgoing request carries the three fixed headers together
with the default entries; per-call headers are ignored entirely (the
outgoing headers equal those of a call with no per-call headers). -/
theorem header_layers (key version : String) (perCall : List (String × String)) :
    lookupHeader (outgoingHeaders key version [("X-Custom", "v")] perCall)
        "Authorization" = some ("Bearer " ++ key) ∧
    lookupHeader (outgoingHeaders key version [("X-Custom", "v")] perCall)
        "Content-Type" = some "application/json" ∧
    lookupHeader (outgoingHeaders key version [("X-Custom", "v")] perCall)
        "X-SDK-Version" = some ("raven-sdk:" ++ version) ∧
    lookupHeader (outgoingHeaders key version [("X-Custom", "v")] perCall)
        "X-Custom" = some "v" ∧
    outgoingHeaders key version [("X-Custom", "v")] perCall
      = outgoingHeaders key version [("X-Custom", "v")] [] ∧
    lookupHeader (clientHeaders key version [("Authorization", "o")])
        "Authorization" = some "o" :=
  ⟨rfl, rfl, rfl, rfl, rfl, rfl⟩

/-- Claim C7 (counterexample): `Emails.sendQueued` does not propagate the
transport's error unchanged.  With the transport returning
`{not_found, "gone"}`, the operation's `!response.data?.idempotencyKey`
guard fires first and replaces it with `{application_error, "No
idempotency key returned from queue endpoint"}`. -/
theorem transport_error_masking_counterexample :
    (Emails.sendQueued ⟨["a@b.c"], none, none, "s", some "hi", false, none, none, none⟩
        ⟨1, 2, "sid", 3, 4, true⟩ (.rendered "")
        (fun _ => ⟨Json.null, errJson "not_found" "gone"⟩)).envelope
      ≠ ⟨Json.null, errJson "not_found" "gone"⟩ := by
  decide

/-- Claim C7 (amended): for the pipeline operations other than
`Emails.sendQueued` (stated for the cited `ApiKeys.create`, and
`Broadcasts.get`), a truthy transport error is returned unchanged with
`data` null; `Emails.sendQueued` instead replaces any transport error with
`{application_error, "No idempotency key returned from queue endpoint"}`. -/
theorem transport_error_propagation (isUuid isDatetime : String → Bool)
    (o : CreateApiKeyOptions) (hv : createApiKeyIssues isUuid isDatetime o = [])
    (id cid : Int) (e : Json) (he : e.truthy = true)
    (p : QueuedEmailPayload) (m : QueuedEmailMetadata) (render : RenderOutcome)
    (hp : p.hasReact = false) :
    (ApiKeys.create isUuid isDatetime o (fun _ => ⟨Json.null, e⟩)).envelope
      = ⟨Json.null, e⟩ ∧
    (Broadcasts.get id cid (fun _ => ⟨Json.null, e⟩)).envelope = ⟨Json.null, e⟩ ∧
    (Emails.sendQueued p m render (fun _ => ⟨Json.null, e⟩)).envelope
      = ⟨Json.null, errJson "application_error"
          "No idempotency key returned from queue endpoint"⟩ := by
  refine ⟨?_, ?_, ?_⟩
  · unfold ApiKeys.create
    dsimp only
    rw [hv]
    simp [unwrapResponse, he]
  · simp [Broadcasts.get, unwrapResponse, he]
  · unfold Emails.sendQueued
    dsimp only
    rw [hp]
    simp [Json.getField, Json.truthy]

/-- Claim C7 (witness): concrete propagation/masking with the error
`{not_found, "gone"}`. -/
theorem transport_error_propagation_witness :
    (createApiKeyIssues (fun _ => true) (fun _ => true)
        ⟨"Name", 1, "u", none, none, none⟩ = [] ∧
     (errJson "not_found" "gone").truthy = true ∧
     (QueuedEmailPayload.mk ["a@b.c"] none none "s" (some "hi") false none none none).hasReact
       = false) ∧
    (ApiKeys.create (fun _ => true) (fun _ => true) ⟨"Name", 1, "u", none, none, none⟩
        (fun _ => ⟨Json.null, errJson "not_found" "gone"⟩)).envelope
      = ⟨Json.null, errJson "not_found" "gone"⟩ ∧
    (Broadcasts.get 1 2 (fun _ => ⟨Json.null, errJson "not_found" "gone"⟩)).envelope
      = ⟨Json.null, errJson "not_found" "gone"⟩ ∧
    (Emails.sendQueued ⟨["a@b.c"], none, none, "s", some "hi", false, none, none, none⟩
        ⟨1, 2, "sid", 3, 4, true⟩ (.rendered "")
        (fun _ => ⟨Json.null, errJson "not_found" "gone"⟩)).envelope
      = ⟨Json.null, errJson "application_error"
          "No idempotency key returned from queue endpoint"⟩ := by
  have h := transport_error_propagation (fun _ => true) (fun _ => true)
    ⟨"Name", 1, "u", none, none, none⟩ (by decide) 1 2
    (errJson "not_found" "gone") (by decide)
    ⟨["a@b.c"], none, none, "s", some "hi", false, none, none, none⟩
    ⟨1, 2, "sid", 3, 4, true⟩ (.rendered "") (by decide)
  exact ⟨⟨by decide, by decide, by decide⟩, h.1, h.2.1, h.2.2⟩

/-- Claim C8: `normalizeError` classifies every thrown value by exactly
the specified precedence — schema-validation exception (ZodError) first,
then an ErrorInfo-shaped value passed through unchanged, then a generic
exception mapped to the exception's message, then anything else mapped to
`"Unknown error"` — proved as equality with `claimClassify`, the
classifier restated from the spec's words. -/
theorem normalizeError_matches_spec_precedence (t : Thrown) :
    normalizeError t = claimClassify t := by
  cases t with
  | zod issues => rfl
  | errObj isError fields =>
    have hG : isRavenErrorResponse (.errObj isError fields)
        = claimHasErrorInfoShape (.errObj isError fields) := by
      simp [isRavenErrorResponse, claimHasErrorInfoShape, Bool.and_comm]
    simp [normalizeError, claimClassify, hG]
  | nonObj j => simp [normalizeError, claimClassify, claimHasErrorInfoShape]

/-- Claim C9 (counterexample): `{company_id: 1, offset: 0}` passes
`listApiKeysSchema` (offset only needs to be ≥ 0), yet the query string is
just `companyId=1`: `offset` is defined and non-empty but appears zero
times, not once, because `if (options.offset)` drops the falsy `0`. -/
theorem list_query_offset_counterexample :
    listApiKeysIssues ⟨1, none, some 0, none⟩ = [] ∧
    (ApiKeys.list ⟨1, none, some 0, none⟩ (fun _ => ⟨Json.null, Json.null⟩)).requests
      = [⟨"GET", "/api-keys?companyId=1", none⟩] ∧
    ¬ ((ApiKeys.listParams ⟨1, none, some 0, none⟩).countP
        (fun p => p.fst = "offset") = 1) := by
  decide

/-- Claim C9 (amended): the list query always contains the mandatory
`companyId` exactly once, and each optional filter exactly once iff it is
defined and truthy (non-zero for the numeric `limit`/`offset`; the status
enum strings are always truthy), with absent or falsy fields omitted
entirely.  Stated for `ApiKeys.list`. -/
theorem list_query_param_occurrences (o : ListApiKeysOptions) :
    (ApiKeys.listParams o).countP (fun p => p.fst = "companyId") = 1 ∧
    (ApiKeys.listParams o).countP (fun p => p.fst = "limit")
      = (match o.limit with | some l => if l ≠ 0 then 1 else 0 | none => 0) ∧
    (ApiKeys.listParams o).countP (fun p => p.fst = "offset")
      = (match o.offset with | some w => if w ≠ 0 then 1 else 0 | none => 0) ∧
    (ApiKeys.listParams o).countP (fun p => p.fst = "status")
      = (match o.status with | some _ => 1 | none => 0) := by
  obtain ⟨cid, lim, off, st⟩ := o
  refine ⟨?_, ?_, ?_, ?_⟩ <;>
    cases lim <;> cases off <;>
      rcases st with _ | s <;> try cases s
  all_goals
    simp only [ApiKeys.listParams, ApiKeyStatus.toStr]
  all_goals
    repeat' split
  all_goals
    simp_all [List.countP_append, List.countP_cons]

/-- Claim C10: the closed error taxonomy is not enforced at the public
boundary.  Any object with string `name`/`message` passes `normalizeError`
unchanged; the transport returns any JSON-parsed non-2xx body as the error
with no shape check; and concretely an error named `unauthorized` — not a
member of `RAVEN_ERROR_CODES` — flows through `ApiKeys.get` to the caller
unchanged. -/
theorem error_taxonomy_not_enforced (b : Bool) (fields : List (String × Json))
    (hsh : isRavenErrorResponse (.errObj b fields) = true) (t : Nat) (j : Json) :
    normalizeError (.errObj b fields) = Json.obj fields ∧
    (fetchRequest t (.response false (.valid j))).error = j ∧
    "unauthorized" ∉ ravenErrorCodes ∧
    (ApiKeys.get 1 1
        (fun _ => ⟨Json.null, errJson "unauthorized" "Company not found or access denied"⟩)).envelope
      = ⟨Json.null, errJson "unauthorized" "Company not found or access denied"⟩ := by
  refine ⟨?_, rfl, by decide, by decide⟩
  simp [normalizeError, hsh]

/-- Claim C10 (witness): the shape guard accepts
`{name: "unauthorized", message: "m"}` and `normalizeError` passes it
through even though `unauthorized` is outside the closed enumeration. -/
theorem error_taxonomy_not_enforced_witness :
    isRavenErrorResponse
        (.errObj false [("name", Json.str "unauthorized"), ("message", Json.str "m")])
      = true ∧
    normalizeError
        (.errObj false [("name", Json.str "unauthorized"), ("message", Json.str "m")])
      = Json.obj [("name", Json.str "unauthorized"), ("message", Json.str "m")] ∧
    "unauthorized" ∉ ravenErrorCodes := by
  have h := error_taxonomy_not_enforced false
    [("name", Json.str "unauthorized"), ("message", Json.str "m")] (by decide) 1 Json.null
  exact ⟨by decide, h.1, h.2.2.1⟩

end MailerSdk
